import Mathlib

/-!
Verification development for the sso-offloading repository.

The repository has two components, each present in several rewritten
variants concatenated in its source files:

* `packages/extension/src/sso_handler.ts` — the extension-side Handler
  (port-based class variants at lines 1-385, one-shot `onMessageExternal`
  variants at lines 386-562, 563-705, 707-826, a timeout variant at
  827-1129 and its sibling at 1130-1349);
* `packages/sso-offloading-connector/src/sso_offloading_connector.ts` —
  the Connector (a callback-based functional variant at lines 1-286 and a
  persistent-port class variant at 287-518).

Each model below is a shallow embedding of one of those variants: the
event-driven code is turned into explicit step functions over a state
type, with the browser-API calls recorded as an effect list.  Suspension
points of the JavaScript code (`await` on tab creation, the pending
redirect/removal/timeout race) become explicit events that resume the
suspended continuation.  JavaScript promise settlement (resolve/reject
are no-ops once a promise is settled) is modelled by an absorbing
`Option Settled` state.  URL strings are parsed by a small query-string
model of `new URL(u).searchParams` sufficient for the plain URLs the
handlers manipulate (no percent-decoding).
-/

namespace SsoOffloading

/-! ## Character-list string utilities (model of the JS string/URL ops) -/

/-- Split a character list at every occurrence of `c` (like JS `split`). -/
def splitCh (c : Char) : List Char → List (List Char)
  | [] => [[]]
  | a :: as =>
    let r := splitCh c as
    if a = c then [] :: r
    else
      match r with
      | [] => [[a]]
      | g :: gs => (a :: g) :: gs

/-- The part of a URL after the first `?`, if any. -/
def afterMark : List Char → Option (List Char)
  | [] => none
  | a :: as => if a = '?' then some as else afterMark as

/-- Split one `key=value` chunk at the first `=` (no `=` gives an empty value). -/
def keyVal : List Char → List Char × List Char
  | [] => ([], [])
  | a :: as =>
    if a = '=' then ([], as)
    else
      let r := keyVal as
      (a :: r.1, r.2)

/-- The `searchParams` of a URL string, as key/value pairs in order. -/
def urlParams (url : String) : List (List Char × List Char) :=
  match afterMark url.data with
  | none => []
  | some q => (splitCh '&' q).map keyVal

/-- `new URL(url).searchParams.get(name)`: first value for `name`, else `none`. -/
def getParam (url name : String) : Option String :=
  match (urlParams url).find? (fun p => p.1 == name.data) with
  | some p => some (String.mk p.2)
  | none => none

/-- `new URL(url).searchParams.has(name)`. -/
def hasParam (url name : String) : Bool :=
  (getParam url name).isSome

/-- A query parameter as used under JS truthiness: absent and empty both count
as missing (`!v` and `v || fallback` treat `""` like `null`). -/
def truthyParam (url name : String) : Option String :=
  match getParam url name with
  | some v => if v = "" then none else some v
  | none => none

/-- `s.startsWith(p)` on character lists. -/
def chStarts : List Char → List Char → Bool
  | _, [] => true
  | [], _ :: _ => false
  | a :: as, b :: bs => a == b && chStarts as bs

/-- JS `s.startsWith(p)`. -/
def strStarts (s p : String) : Bool :=
  chStarts s.data p.data

/-- Substring containment on character lists. -/
def chHas : List Char → List Char → Bool
  | [], n => chStarts [] n
  | a :: as, n => chStarts (a :: as) n || chHas as n

/-- JS `hay.includes(needle)`. -/
def strHas (hay needle : String) : Bool :=
  chHas hay.data needle.data

/-! ## Protocol messages -/

/-- Inbound messages seen by the one-shot handlers (`message.type` dispatch).
`ssoRequest none` stands for an `sso_request` without a `url` field; an empty
`url` is also falsy in the JS checks and is handled where it matters. -/
inductive ExtMessage where
  | ping : ExtMessage
  | ssoRequest (url : Option String) : ExtMessage
  | stopMsg : ExtMessage
  | otherMsg : ExtMessage
deriving DecidableEq, Repr

/-- Terminal and handshake replies sent through `sendResponse`.  The JS
variants name the success payload field `redirect_url` or `redirect_uri`;
both are the single string carried by `success` here. -/
inductive Response where
  | pong : Response
  | success (redirectUri : String) : Response
  | error (message : String) (redirectUri : Option String) : Response
  | cancel (message : String) : Response
deriving DecidableEq, Repr

/-! ## The redirect/removal/timeout race of the timeout variant

Embeds `waitForAuthRedirect` (sso_handler.ts lines 932-981) together with the
timeout promise raced against it in `processSsoFlow` (lines 1013-1021).  The
two chrome listeners and the timer all settle one promise; JS settlement is
first-wins, so the state is an absorbing `Option Settled`. -/

/-- How the race settled: the captured redirect URL, or a failure. -/
inductive FlowFailure where
  | cancelled : FlowFailure
  | timedOut : FlowFailure
  | idpError (message : String) (url : String) : FlowFailure
deriving DecidableEq, Repr

/-- Result of the settled race promise. -/
inductive Settled where
  | ok (url : String) : Settled
  | fail (f : FlowFailure) : Settled
deriving DecidableEq, Repr

/-- Chrome tab events observed by one flow: `tabs.onUpdated` (with the
`changeInfo.url` field, possibly absent), `tabs.onRemoved`, and the flow's
own `setTimeout` firing. -/
inductive TabEvent where
  | updated (tabId : Nat) (url : Option String) : TabEvent
  | removed (tabId : Nat) : TabEvent
  | timeout : TabEvent
deriving DecidableEq, Repr

/-- `capturedUrl.searchParams.has('error') || has('error_code')` (lines 950-953). -/
def hasIdpError (url : String) : Bool :=
  hasParam url "error" || hasParam url "error_code"

/-- `error_description || error || 'Identity Provider returned an error.'`
(lines 954-957). -/
def idpErrorMessage (url : String) : String :=
  match truthyParam url "error_description" with
  | some m => m
  | none =>
    match truthyParam url "error" with
    | some m => m
    | none => "Identity Provider returned an error."

/-- One listener/timer firing against the race promise.  `some _` is absorbing:
`resolve`/`reject` on a settled promise are no-ops.  On a matching update the
listener first rejects when the redirect carries an OAuth error parameter and
otherwise resolves with the URL (lines 941-961); `onTabRemoveListener` rejects
with a cancellation (lines 964-968); the timer rejects with a timeout
(lines 1013-1018). -/
def settleStepV5 (authTabId : Nat) (expected : String) :
    Option Settled → TabEvent → Option Settled
  | some st, _ => some st
  | none, .updated tid u? =>
    match u? with
    | some u =>
      if tid == authTabId && strStarts u expected then
        if hasIdpError u then some (.fail (.idpError (idpErrorMessage u) u))
        else some (.ok u)
      else none
    | none => none
  | none, .removed tid =>
    if tid == authTabId then some (.fail .cancelled) else none
  | none, .timeout => some (.fail .timedOut)

/-- Whether a single event settles the still-pending race. -/
def settlesV5 (authTabId : Nat) (expected : String) (e : TabEvent) : Bool :=
  (settleStepV5 authTabId expected none e).isSome

/-- The message of the `AuthFlowError` carried by each failure. -/
def failureMessage : FlowFailure → String
  | .cancelled => "The SSO flow has been cancelled."
  | .timedOut => "The SSO flow has timed out."
  | .idpError m _ => m

/-- The optional `redirect_uri` field of the `AuthFlowError` (only the OAuth
error path passes the URL along, line 958). -/
def failureUri : FlowFailure → Option String
  | .idpError _ u => some u
  | _ => none

/-- The single `sendResponse` of `processSsoFlow` once its one `await` of the
race completes: the try branch sends `success` (line 1023), the catch branch
wraps the failure message (lines 1026-1030). -/
def toResponseV5 : Settled → Response
  | .ok u => .success u
  | .fail f => .error ("Error occured during SSO flow: " ++ failureMessage f) (failureUri f)

/-- Fold step tracking the race state and the terminal replies emitted: a
reply is sent exactly when the pending race settles (the resumed `await`). -/
def flowStep (authTabId : Nat) (expected : String)
    (p : Option Settled × List Response) (e : TabEvent) :
    Option Settled × List Response :=
  match p.1 with
  | some _ => p
  | none =>
    match settleStepV5 authTabId expected none e with
    | some st => (some st, p.2 ++ [toResponseV5 st])
    | none => p

/-- All terminal replies one flow emits over a sequence of trigger events. -/
def flowRepliesV5 (authTabId : Nat) (expected : String) (evs : List TabEvent) :
    List Response :=
  (evs.foldl (flowStep authTabId expected) (none, [])).2

/-! ## Full event-loop model of the timeout variant (lines 827-1129)

`handleExternalMessage` (lines 1047-1119) dispatches each inbound one-shot
message; `processSsoFlow` (lines 983-1039) runs synchronously up to its
`await createAuthTab(ssoUrl)` (line 997), so a flow that has issued its tab
creation but not yet resumed is recorded in `pending`; only the resumption
(line 1004) performs `activeFlows.set`.  Tab acquisition
(`createAuthTab`/`getLastFocusedWindow`/`createNewWindow`, lines 867-923)
is abstracted into one `createTab` effect and a `tabCreated`/
`tabCreateFailed` resumption event.  The keep-alive interval (lines
1101-1112) only calls `getPlatformInfo` and is not modelled. -/

/-- The `{tabId, windowId}` record stored in `activeFlows` (line 846). -/
structure ActiveRec where
  tabId : Nat
  windowId : Nat
deriving DecidableEq, Repr

/-- A flow suspended at `await createAuthTab`, with its already-computed
expected redirect prefix. -/
structure PendingFlow where
  flowId : String
  expected : String
deriving DecidableEq, Repr

/-- A flow whose tab exists and whose redirect/removal/timeout race is
pending (`waitForAuthRedirect` listeners attached). -/
structure WaitingFlow where
  flowId : String
  tabId : Nat
  windowId : Nat
  expected : String
deriving DecidableEq, Repr

/-- Handler state of the timeout variant: the `activeFlows` map plus the
suspended continuations of each in-flight `processSsoFlow`. -/
structure V5State where
  activeFlows : List (String × ActiveRec)
  pending : List PendingFlow
  waiting : List WaitingFlow
deriving DecidableEq, Repr

def V5State.initial : V5State := ⟨[], [], []⟩

/-- Browser-API calls the Handler performs, recorded in order. -/
inductive Effect where
  | reply (r : Response)
  | createTab (url : String)
  | closeTab (tabId : Nat)
  | focusWindow (windowId : Nat)
  | focusTab (tabId : Nat)
deriving DecidableEq, Repr

/-- `activeFlows.get(k)` on the association-list model of the JS `Map`. -/
def lookupFlow (m : List (String × ActiveRec)) (k : String) : Option ActiveRec :=
  match m.find? (fun p => p.1 == k) with
  | some p => some p.2
  | none => none

/-- `activeFlows.set(k, v)`. -/
def setFlow (m : List (String × ActiveRec)) (k : String) (v : ActiveRec) :
    List (String × ActiveRec) :=
  if (m.find? (fun p => p.1 == k)).isSome then
    m.map (fun p => if p.1 == k then (k, v) else p)
  else m ++ [(k, v)]

/-- `activeFlows.delete(k)`. -/
def delFlow (m : List (String × ActiveRec)) (k : String) : List (String × ActiveRec) :=
  m.filter (fun p => !(p.1 == k))

/-- Events driving the Handler's event loop.  `tabCreated`/`tabCreateFailed`
resume a `processSsoFlow` suspended at its tab-creation `await` (the failure
message is the text of the exception thrown there); `flowTimeout` is the
flow's `setTimeout` firing. -/
inductive HEvent where
  | message (origin : Option String) (m : ExtMessage)
  | tabCreated (flowId : String) (tabId : Nat) (windowId : Nat)
  | tabCreateFailed (flowId : String) (message : String)
  | tabUpdated (tabId : Nat) (url : Option String)
  | tabRemoved (tabId : Nat)
  | flowTimeout (flowId : String)
deriving DecidableEq, Repr

/-- `isSsoRequestValid` (lines 1041-1045): `!!flowId && flowId in trustedClients`. -/
def isSsoRequestValidV5 (trusted : List String) (origin : Option String) : Bool :=
  match origin with
  | some fid => trusted.contains fid
  | none => false

/-- `handleExternalMessage` of the timeout variant (lines 1047-1119), run to
its first suspension: the `stop` branch, the authorization check, `ping`,
message-shape validation, the duplicate-flow focus branch, and otherwise the
synchronous prefix of `processSsoFlow` (lines 983-997) ending at
`await createAuthTab`.  `new URL(url)` is treated as total on the URL strings
considered; line 995 computes the expected prefix as
`searchParams.get('redirect_uri') || senderOrigin`. -/
def stepMessageV5 (trusted : List String) (s : V5State) (origin : Option String)
    (m : ExtMessage) : V5State × List Effect :=
  match m with
  | .stopMsg =>
    match origin with
    | some fid =>
      match lookupFlow s.activeFlows fid with
      | some r =>
        ({ s with activeFlows := delFlow s.activeFlows fid }, [.closeTab r.tabId])
      | none => (s, [])
    | none => (s, [])
  | .ping =>
    if !(isSsoRequestValidV5 trusted origin) then
      (s, [.reply (.error "Request from an untrusted origin." none)])
    else (s, [.reply .pong])
  | .otherMsg =>
    if !(isSsoRequestValidV5 trusted origin) then
      (s, [.reply (.error "Request from an untrusted origin." none)])
    else (s, [.reply (.error "Request is invalid" none)])
  | .ssoRequest u? =>
    if !(isSsoRequestValidV5 trusted origin) then
      (s, [.reply (.error "Request from an untrusted origin." none)])
    else
      match u? with
      | none => (s, [.reply (.error "Request is invalid" none)])
      | some u =>
        if u = "" then (s, [.reply (.error "Request is invalid" none)])
        else
          match origin with
          | some fid =>
            match lookupFlow s.activeFlows fid with
            | some r => (s, [.focusWindow r.windowId, .focusTab r.tabId])
            | none =>
              let expected := (truthyParam u "redirect_uri").getD fid
              ({ s with pending := s.pending ++ [⟨fid, expected⟩] }, [.createTab u])
          | none => (s, [])

/-- Extract the first pending flow with the given flow id, if any, together
with the remaining pending list. -/
def pullPending : List PendingFlow → String → Option (PendingFlow × List PendingFlow)
  | [], _ => none
  | p :: ps, fid =>
    if p.flowId == fid then some (p, ps)
    else
      match pullPending ps fid with
      | some (q, rest) => some (q, p :: rest)
      | none => none

/-- Resumption of `processSsoFlow` after `await createAuthTab` succeeds
(lines 999-1011): `activeFlows.set(flowId, authInfo)` happens only now, then
the redirect race is entered. -/
def stepTabCreatedV5 (s : V5State) (fid : String) (tid wid : Nat) :
    V5State × List Effect :=
  match pullPending s.pending fid with
  | some (p, rest) =>
    ({ activeFlows := setFlow s.activeFlows fid ⟨tid, wid⟩,
       pending := rest,
       waiting := s.waiting ++ [⟨fid, tid, wid, p.expected⟩] }, [])
  | none => (s, [])

/-- Resumption of `processSsoFlow` when tab creation throws (lines 997-1037):
the catch sends the wrapped error, the finally deletes the flow key (not yet
present) and has no tab to close. -/
def stepTabCreateFailedV5 (s : V5State) (fid msg : String) :
    V5State × List Effect :=
  match pullPending s.pending fid with
  | some (_, rest) =>
    ({ s with pending := rest, activeFlows := delFlow s.activeFlows fid },
     [.reply (.error ("Error occured during SSO flow: " ++ msg) none)])
  | none => (s, [])

/-- Completion of one waiting flow: the resumed `await` sends the single
terminal reply (lines 1023, 1026-1030), then the finally block deletes the
flow key, detaches the listeners and closes the tab (lines 1031-1037). -/
def finishFlowV5 (s : V5State) (w : WaitingFlow) (st : Settled) :
    V5State × List Effect :=
  ({ s with activeFlows := delFlow s.activeFlows w.flowId,
            waiting := s.waiting.erase w },
   [.reply (toResponseV5 st), .closeTab w.tabId])

/-- A chrome tab event delivered to every waiting flow's listeners. -/
def fireTabV5 (ev : TabEvent) (s : V5State) : V5State × List Effect :=
  s.waiting.foldl
    (fun (acc : V5State × List Effect) w =>
      match settleStepV5 w.tabId w.expected none ev with
      | some st =>
        let r := finishFlowV5 acc.1 w st
        (r.1, acc.2 ++ r.2)
      | none => acc)
    (s, [])

/-- A flow's `setTimeout` firing (lines 1013-1018), keyed here by flow id. -/
def stepFlowTimeoutV5 (s : V5State) (fid : String) : V5State × List Effect :=
  s.waiting.foldl
    (fun (acc : V5State × List Effect) w =>
      if w.flowId == fid then
        let r := finishFlowV5 acc.1 w (.fail .timedOut)
        (r.1, acc.2 ++ r.2)
      else acc)
    (s, [])

/-- One event-loop step of the timeout-variant Handler. -/
def stepV5 (trusted : List String) (s : V5State) : HEvent → V5State × List Effect
  | .message o m => stepMessageV5 trusted s o m
  | .tabCreated fid tid wid => stepTabCreatedV5 s fid tid wid
  | .tabCreateFailed fid msg => stepTabCreateFailedV5 s fid msg
  | .tabUpdated tid u? => fireTabV5 (.updated tid u?) s
  | .tabRemoved tid => fireTabV5 (.removed tid) s
  | .flowTimeout fid => stepFlowTimeoutV5 s fid

/-- Run the timeout-variant Handler over an event trace from the empty state. -/
def runV5 (trusted : List String) (evs : List HEvent) : V5State × List Effect :=
  evs.foldl
    (fun (acc : V5State × List Effect) e =>
      let r := stepV5 trusted acc.1 e
      (r.1, acc.2 ++ r.2))
    (V5State.initial, [])

/-- Number of tab-creation calls in an effect trace. -/
def countCreateTab (effs : List Effect) : Nat :=
  (effs.filter (fun e => match e with | .createTab _ => true | _ => false)).length

/-- Number of `sendResponse` calls in an effect trace. -/
def countReplies (effs : List Effect) : Nat :=
  (effs.filter (fun e => match e with | .reply _ => true | _ => false)).length

/-! ## The one-shot `onMessageExternal` variants (lines 386-562, 563-705, 707-826)

These three variants share their flow body: `activeFlows` is a `Set<string>`
added to synchronously in the message handler, the tab-observation promise
has no OAuth-error check and no timeout, and a cancellation is detected in
the catch by the `User canceled` message.  Only the message-dispatch order
and its error replies differ, so the dispatch of each variant is a separate
function over a common state. -/

/-- State of a one-shot handler: the `activeFlows` string set plus the
suspended continuations, as for the timeout variant. -/
structure OneShotState where
  activeFlows : List String
  pending : List PendingFlow
  waiting : List WaitingFlow
deriving DecidableEq, Repr

def OneShotState.initial : OneShotState := ⟨[], [], []⟩

/-- `activeFlows.add(fid)` on the list model of the JS `Set`. -/
def addFlow (l : List String) (fid : String) : List String :=
  if l.contains fid then l else fid :: l

/-- `activeFlows.delete(fid)`. -/
def removeFlow (l : List String) (fid : String) : List String :=
  l.erase fid

/-- The tab-observation promise of the one-shot variants
(`waitForAuthRedirect`, lines 427-460; inlined at 621-639 and 756-774):
a matching URL update resolves, removal of the auth tab rejects with the
cancellation error, and there is no timer. -/
def settleStepBasic (authTabId : Nat) (expected : String) :
    Option Settled → TabEvent → Option Settled
  | some st, _ => some st
  | none, .updated tid u? =>
    match u? with
    | some u =>
      if tid == authTabId && strStarts u expected then some (.ok u) else none
    | none => none
  | none, .removed tid =>
    if tid == authTabId then some (.fail .cancelled) else none
  | none, .timeout => none

/-- The single `sendResponse` of a completed one-shot flow (lines 491-498,
673-678, 790-796): success carries the captured URL, the cancellation error
becomes a `cancel` reply, anything else an `error` reply. -/
def toResponseBasic : Settled → Response
  | .ok u => .success u
  | .fail .cancelled => .cancel "User canceled the authentication flow."
  | .fail f => .error (failureMessage f) none

/-- Completion of one waiting one-shot flow: reply, then the finally block
deletes the flow id, removes the listeners and closes the tab
(lines 499-505, 679-690, 797-811). -/
def finishFlowOneShot (s : OneShotState) (w : WaitingFlow) (st : Settled) :
    OneShotState × List Effect :=
  ({ s with activeFlows := removeFlow s.activeFlows w.flowId,
            waiting := s.waiting.erase w },
   [.reply (toResponseBasic st), .closeTab w.tabId])

/-- A chrome tab event delivered to every waiting one-shot flow. -/
def fireTabOneShot (ev : TabEvent) (s : OneShotState) : OneShotState × List Effect :=
  s.waiting.foldl
    (fun (acc : OneShotState × List Effect) w =>
      match settleStepBasic w.tabId w.expected none ev with
      | some st =>
        let r := finishFlowOneShot acc.1 w st
        (r.1, acc.2 ++ r.2)
      | none => acc)
    (s, [])

/-- Extract the first pending one-shot flow for a flow id. -/
def stepTabCreatedOneShot (s : OneShotState) (fid : String) (tid wid : Nat) :
    OneShotState × List Effect :=
  match pullPending s.pending fid with
  | some (p, rest) =>
    ({ s with pending := rest, waiting := s.waiting ++ [⟨fid, tid, wid, p.expected⟩] }, [])
  | none => (s, [])

/-- Tab creation threw inside a one-shot flow: the catch replies with the
error message, the finally block deletes the flow id; no tab to close. -/
def stepTabCreateFailedOneShot (s : OneShotState) (fid msg : String) :
    OneShotState × List Effect :=
  match pullPending s.pending fid with
  | some (_, rest) =>
    ({ s with pending := rest, activeFlows := removeFlow s.activeFlows fid },
     [.reply (.error msg none)])
  | none => (s, [])

/-- Shared synchronous prefix of the one-shot flow bodies once validation
passed and `fid` was added to `activeFlows`: parse the URL, require a truthy
`redirect_uri` (throwing otherwise, which the catch turns into an error reply
and the finally undoes the `add`), then call the tab-creation API and
suspend. -/
def startOneShotFlow (s : OneShotState) (fid u : String) : OneShotState × List Effect :=
  let s1 : OneShotState := { s with activeFlows := addFlow s.activeFlows fid }
  match truthyParam u "redirect_uri" with
  | none =>
    ({ s1 with activeFlows := removeFlow s1.activeFlows fid },
     [.reply (.error "URL must have a \x27redirect_uri\x27 parameter." none)])
  | some expected =>
    ({ s1 with pending := s1.pending ++ [⟨fid, expected⟩] }, [.createTab u])

/-- `isRequestValid` of the variant at lines 386-562 (lines 511-519):
`!!flowId && flowId in trustedClients && !activeFlows.has(flowId)`. -/
def isRequestValid (origin : Option String) (trusted : List String)
    (activeFlows : List String) : Bool :=
  match origin with
  | some fid => trusted.contains fid && !(activeFlows.contains fid)
  | none => false

/-- `handleExternalMessage` of the variant at lines 386-562 (lines 521-552):
`ping` is answered first, then non-`sso_request` shapes are ignored, then
`isRequestValid` gates a single error reply, then the flow is registered and
`processSsoFlow` (lines 465-489) runs to its tab-creation `await`. -/
def stepMessageV3 (trusted : List String) (s : OneShotState)
    (origin : Option String) (m : ExtMessage) : OneShotState × List Effect :=
  match m with
  | .ping => (s, [.reply .pong])
  | .ssoRequest u? =>
    match u? with
    | some u =>
      if u = "" then (s, [])
      else if !(isRequestValid origin trusted s.activeFlows) then
        (s, [.reply (.error "Request is invalid or a flow is already in progress." none)])
      else
        match origin with
        | some fid => startOneShotFlow s fid u
        | none => (s, [])
    | none => (s, [])
  | _ => (s, [])

/-- `handleExternalMessage` of the variant at lines 563-705 (lines 568-607):
non-`sso_request` shapes are handled first (`ping` gets `pong` with no
authorization check), then missing origin, the `trusted_clients` allow-list,
and an already-active flow each yield their own error reply. -/
def stepMessageV2 (trusted : List String) (s : OneShotState)
    (origin : Option String) (m : ExtMessage) : OneShotState × List Effect :=
  match m with
  | .ping => (s, [.reply .pong])
  | .ssoRequest u? =>
    match u? with
    | some u =>
      if u = "" then (s, [])
      else
        match origin with
        | none => (s, [.reply (.error "Request source is invalid." none)])
        | some fid =>
          if !(trusted.contains fid) then
            (s, [.reply (.error "Request source is not trusted." none)])
          else if s.activeFlows.contains fid then
            (s, [.reply (.error "An SSO flow for this document is already in progress." none)])
          else startOneShotFlow s fid u
    | none => (s, [])
  | _ => (s, [])

/-- `handleExternalMessage` of the variant at lines 707-826 (lines 711-741):
identical to the previous variant except that there is no allow-list check at
all — any sender with an origin and no active flow starts a flow. -/
def stepMessageV4 (s : OneShotState) (origin : Option String) (m : ExtMessage) :
    OneShotState × List Effect :=
  match m with
  | .ping => (s, [.reply .pong])
  | .ssoRequest u? =>
    match u? with
    | some u =>
      if u = "" then (s, [])
      else
        match origin with
        | none => (s, [.reply (.error "Request source is invalid." none)])
        | some fid =>
          if s.activeFlows.contains fid then
            (s, [.reply (.error "An SSO flow for this document is already in progress." none)])
          else startOneShotFlow s fid u
    | none => (s, [])
  | _ => (s, [])

/-- One event-loop step of a one-shot handler with the given dispatch. -/
def stepOneShot (dispatch : OneShotState → Option String → ExtMessage → OneShotState × List Effect)
    (s : OneShotState) : HEvent → OneShotState × List Effect
  | .message o m => dispatch s o m
  | .tabCreated fid tid wid => stepTabCreatedOneShot s fid tid wid
  | .tabCreateFailed fid msg => stepTabCreateFailedOneShot s fid msg
  | .tabUpdated tid u? => fireTabOneShot (.updated tid u?) s
  | .tabRemoved tid => fireTabOneShot (.removed tid) s
  | .flowTimeout _ => (s, [])

/-- Run a one-shot handler over an event trace from the empty state. -/
def runOneShot (dispatch : OneShotState → Option String → ExtMessage → OneShotState × List Effect)
    (evs : List HEvent) : OneShotState × List Effect :=
  evs.foldl
    (fun (acc : OneShotState × List Effect) e =>
      let r := stepOneShot dispatch acc.1 e
      (r.1, acc.2 ++ r.2))
    (OneShotState.initial, [])

/-- The no-allow-list variant (lines 707-826) over an event trace. -/
def runV4 (evs : List HEvent) : OneShotState × List Effect :=
  runOneShot stepMessageV4 evs

/-! ## The callback-based Connector (sso_offloading_connector.ts lines 1-286)

`createSsoOffloadingConnector` closes over `isRequestInFlight`, `isStarted`
and `interceptor`.  `start` (lines 176-265) runs its handshake promise with a
`.catch` that feeds the error callback, then unconditionally creates a
`WebRequestInterceptor`, attaches a `beforerequest` listener, and resolves.
`handleInterceptRequest` (lines 69-174) guards on the in-flight flag and
processes the `sendMessage` callback.  `stop` (lines 267-283) resets the
flags; its `removeEventListener` passes `handleInterceptRequest`, which was
never the attached listener (line 258 attached an anonymous wrapper), so the
attached-listener count is unchanged by it. -/

/-- Connector error taxonomy (errors.ts of the connector package). -/
inductive ConnError where
  | configurationError (message : String)
  | communicationError (message : String)
  | invalidResponseError (message : String)
deriving DecidableEq, Repr

/-- Observable actions of the callback-based Connector. -/
inductive ConnEffect where
  | errorCb (e : ConnError)
  | successCb (url : String)
  | setFrameSrc (url : String)
  | sendSsoRequest (url : String)
  | attachInterceptListener
  | detachInterceptListener
deriving DecidableEq, Repr

/-- Closure state of one connector instance, plus the number of
`beforerequest` listeners currently attached to interceptors it created. -/
structure FnConnState where
  isStarted : Bool
  isRequestInFlight : Bool
  attachedListeners : Nat
deriving DecidableEq, Repr

def FnConnState.initial : FnConnState := ⟨false, false, 0⟩

/-- Whether the promise returned by `start` resolved or rejected. -/
inductive StartResult where
  | resolved : StartResult
  | rejected (e : ConnError) : StartResult
deriving DecidableEq, Repr

/-- Outcome of the `ping` handshake attempt, decided by the environment:
a `pong` callback, `chrome.runtime.lastError`, a non-`pong` response, or the
`timeoutMs` timer firing first. -/
inductive PingOutcome where
  | pongReceived : PingOutcome
  | channelError : PingOutcome
  | invalidResponse : PingOutcome
  | timedOut : PingOutcome
deriving DecidableEq, Repr

/-- The rejection each failed handshake produces (lines 197-244). -/
def handshakeFailure (timeoutMs : Nat) : PingOutcome → Option ConnError
  | .pongReceived => none
  | .timedOut =>
    some (.communicationError
      ("Connection to extension timed out after " ++ toString timeoutMs ++ "ms."))
  | .channelError =>
    some (.communicationError
      "Failed to connect. The extension may not be installed or enabled.")
  | .invalidResponse =>
    some (.invalidResponseError
      "Received an invalid handshake response from the extension.")

/-- `start(timeoutMs)` of the callback-based connector (lines 176-265): an
already-started instance only reports a `ConfigurationError` through the
error callback (no return, lines 178-184); a handshake failure is caught by
`.catch(handleError)` (lines 247-249); in every case execution continues to
create an interceptor, attach a listener and mark the connector started
(lines 251-264), and the returned promise resolves. -/
def startFn (timeoutMs : Nat) (s : FnConnState) (o : PingOutcome) :
    FnConnState × List ConnEffect × StartResult :=
  let alreadyEff :=
    if s.isStarted then
      [ConnEffect.errorCb (.configurationError "Connector is already started.")]
    else []
  let handshakeEff :=
    match handshakeFailure timeoutMs o with
    | some e => [ConnEffect.errorCb e]
    | none => []
  ({ isStarted := true, isRequestInFlight := s.isRequestInFlight,
     attachedListeners := s.attachedListeners + 1 },
   alreadyEff ++ handshakeEff ++ [.attachInterceptListener],
   .resolved)

/-- Shape of the `sendMessage` response for an `sso_request`, as the callback
sees it: `success` with a possibly missing/non-string/empty `redirect_url`
(all falsy or non-string, hence invalid, lines 128-131), `error`, or any
other type. -/
inductive RespMsg where
  | successMsg (redirectUrl : Option String) : RespMsg
  | errorMsg (message : String) : RespMsg
  | unknownMsg : RespMsg
deriving DecidableEq, Repr

/-- How the `sendMessage` callback for an `sso_request` fires:
`chrome.runtime.lastError`, an empty response, or a response message. -/
inductive RespOutcome where
  | channelError : RespOutcome
  | noResponse : RespOutcome
  | msg (m : RespMsg) : RespOutcome
deriving DecidableEq, Repr

/-- Events driving one started connector instance. -/
inductive FnEvent where
  | intercept (url : String)
  | response (r : RespOutcome)
  | stopCall : FnEvent
deriving DecidableEq, Repr

/-- Effects of the response callback of `handleInterceptRequest`
(lines 91-172), after it has cleared the in-flight flag (line 96). -/
def responseEffects : RespOutcome → List ConnEffect
  | .channelError =>
    [.errorCb (.communicationError
      "A communication error occurred while sending the SSO request.")]
  | .noResponse =>
    [.errorCb (.communicationError
      "The extension did not provide a response for the SSO request.")]
  | .msg (.successMsg u?) =>
    match u? with
    | some u =>
      if u = "" then
        [.errorCb (.invalidResponseError "Received an invalid success message.")]
      else [.setFrameSrc u, .successCb u]
    | none => [.errorCb (.invalidResponseError "Received an invalid success message.")]
  | .msg (.errorMsg _) =>
    [.errorCb (.communicationError "The extension reported an error during SSO.")]
  | .msg .unknownMsg =>
    [.errorCb (.invalidResponseError "Received an unexpected response type from the extension.")]

/-- One step of a started callback-based connector: `handleInterceptRequest`
(lines 69-89) drops the navigation while a request is in flight and otherwise
sends the `sso_request`; its response callback clears the flag first
(line 96) and then dispatches; `stop` (lines 267-283) resets both flags. -/
def stepFn (s : FnConnState) : FnEvent → FnConnState × List ConnEffect
  | .intercept u =>
    if s.isRequestInFlight then (s, [])
    else ({ s with isRequestInFlight := true }, [.sendSsoRequest u])
  | .response r =>
    ({ s with isRequestInFlight := false }, responseEffects r)
  | .stopCall =>
    if !s.isStarted then (s, [])
    else
      ({ s with isStarted := false, isRequestInFlight := false },
       [.detachInterceptListener])

/-! ## The persistent-port Connector class (lines 287-518) -/

/-- State touched by `handleMessageFromExtension`: the embedded surface's
`src` and the in-flight flag.  `src` is an `Option` so that the JS assignment
of an absent `message.url` is representable. -/
structure PortConnState where
  frameSrc : Option String
  isRequestInFlight : Bool
deriving DecidableEq, Repr

/-- Port messages as the class connector's listener inspects them:
`ssoSuccess` with a possibly missing/non-string/empty `url`, `ssoError`, or
anything else. -/
inductive PortMsg where
  | ssoSuccess (url : Option String) : PortMsg
  | ssoError (message : Option String) : PortMsg
  | otherPortMsg : PortMsg
deriving DecidableEq, Repr

/-- Observable actions of the class connector's message listener. -/
inductive PortEffect where
  | errorCb (e : ConnError)
  | successCb (url : Option String)
  | setSrc (url : Option String)
deriving DecidableEq, Repr

/-- `handleMessageFromExtension` (lines 322-348): on `ssoSuccess` an invalid
`url` raises the error callback, but with no `else`/`return` the method still
assigns `controlledFrame.src = message.url` and invokes the success callback
(lines 326-336); `ssoError` raises the error callback; every message clears
the in-flight flag (line 347). -/
def handleMessageFromExtension (s : PortConnState) (m : PortMsg) :
    PortConnState × List PortEffect :=
  match m with
  | .ssoSuccess u? =>
    let invalid :=
      match u? with
      | some u => u == ""
      | none => true
    let pre :=
      if invalid then
        [PortEffect.errorCb (.invalidResponseError "Received an invalid ssoSuccess message.")]
      else []
    (⟨u?, false⟩, pre ++ [.setSrc u?, .successCb u?])
  | .ssoError _ =>
    ({ s with isRequestInFlight := false },
     [.errorCb (.communicationError "The extension reported an error during SSO.")])
  | .otherPortMsg => ({ s with isRequestInFlight := false }, [])

/-! ## `SsoConnectionHandler.cleanup` of the port-based Handler

Embeds the synchronous variant at sso_handler.ts lines 326-351; the `async`
variant at lines 164-189 performs the same guarded removals and guarded tab
close (awaiting it and catching close errors). -/

/-- The fields of `SsoConnectionHandler` that `cleanup` reads and writes,
together with the chrome listener registry facts it queries: whether the
instance's `webRequestHandler` callback is currently attached
(`onBeforeRequest.hasListener`) and whether its `handleTabRemoval` is
(`onRemoved.hasListener`). -/
structure CleanupState where
  webRequestHandler : Option Unit
  authTabId : Option Nat
  wrListenerAttached : Bool
  tabRemovedListenerAttached : Bool
deriving DecidableEq, Repr

/-- Calls `cleanup` makes against the browser.  It never posts a message, so
no reply effect exists here; `tabs.remove` failures are swallowed by the
`.catch`. -/
inductive CleanupEffect where
  | removeWebRequestListener : CleanupEffect
  | removeTabRemovedListener : CleanupEffect
  | closeTab (tabId : Nat) : CleanupEffect
deriving DecidableEq, Repr

/-- `cleanup` (lines 326-351): remove the web-request listener only if the
handler is set and attached, remove the tab-removal listener only if
attached, null the handler, and close the tab only if `authTabId` is set,
clearing it first to prevent re-entry. -/
def cleanup (s : CleanupState) : CleanupState × List CleanupEffect :=
  let removeWr := s.webRequestHandler.isSome && s.wrListenerAttached
  let e1 := if removeWr then [CleanupEffect.removeWebRequestListener] else []
  let wr2 := if removeWr then false else s.wrListenerAttached
  let e2 :=
    if s.tabRemovedListenerAttached then [CleanupEffect.removeTabRemovedListener] else []
  match s.authTabId with
  | some t =>
    (⟨none, none, wr2, false⟩, e1 ++ e2 ++ [.closeTab t])
  | none => (⟨none, none, wr2, false⟩, e1 ++ e2)

/-! ## Theorems -/

theorem flowStep_absorb (authTabId : Nat) (expected : String) :
    ∀ (evs : List TabEvent) (st : Settled) (rs : List Response),
      evs.foldl (flowStep authTabId expected) (some st, rs) = (some st, rs) := by
  intro evs
  induction evs with
  | nil => intro st rs; rfl
  | cons e rest ih => intro st rs; simpa [flowStep] using ih st rs

theorem flowReplies_length (authTabId : Nat) (expected : String) :
    ∀ (evs : List TabEvent),
      (flowRepliesV5 authTabId expected evs).length =
        (if evs.any (settlesV5 authTabId expected) then 1 else 0) := by
  intro evs
  induction evs with
  | nil => rfl
  | cons e rest ih =>
    by_cases h : settlesV5 authTabId expected e = true
    · obtain ⟨st, hst⟩ := Option.isSome_iff_exists.mp h
      simp only [flowRepliesV5, List.foldl_cons, flowStep, hst,
        flowStep_absorb, List.any_cons, h, Bool.true_or, if_true]
      rfl
    · have hnone : settleStepV5 authTabId expected none e = none := by
        unfold settlesV5 at h
        cases hs : settleStepV5 authTabId expected none e with
        | none => rfl
        | some st => rw [hs] at h; simp at h
      simp only [flowRepliesV5, List.foldl_cons, flowStep, hnone,
        List.any_cons, h, Bool.false_or] at ih ⊢
      exact ih

/-- C2: within one flow of the timeout-variant Handler, across every
interleaving of the three triggers (a redirect-matching tab update, removal
of the flow's tab, and the timeout), at most one terminal reply is sent, and
exactly one is sent as soon as the trace contains a trigger that settles the
race; a trigger firing after the first settling one never produces a second
reply, because resolve/reject on the settled promise are no-ops. -/
theorem flow_terminal_reply_exactly_once (authTabId : Nat) (expected : String)
    (evs : List TabEvent) :
    (flowRepliesV5 authTabId expected evs).length ≤ 1 ∧
      ((∃ e ∈ evs, settlesV5 authTabId expected e = true) →
        (flowRepliesV5 authTabId expected evs).length = 1) := by
  constructor
  · rw [flowReplies_length]
    split <;> simp
  · intro h
    have hany : evs.any (settlesV5 authTabId expected) = true := by
      rcases h with ⟨e, he, hs⟩
      exact List.any_eq_true.mpr ⟨e, he, hs⟩
    rw [flowReplies_length, hany]
    rfl

/-- Concrete instance of the single-terminal-reply theorem: a flow whose tab
is removed and whose timer fires later still sends exactly one reply. -/
theorem flow_terminal_reply_exactly_once_witness :
    (flowRepliesV5 7 "h://cb" [TabEvent.removed 7, TabEvent.timeout]).length = 1 :=
  (flow_terminal_reply_exactly_once 7 "h://cb" [TabEvent.removed 7, TabEvent.timeout]).2
    ⟨TabEvent.removed 7, by decide, by decide⟩

/-- C1: evaluation of the timeout-variant Handler on a duplicate
`sso_request` from the same trusted origin delivered while the first flow is
still suspended at `await createAuthTab`.  The duplicate-flow check at
`activeFlows.has(flowId)` sees nothing because `activeFlows.set` only runs
after the await, so the Handler issues a second tab-creation call — the
at-most-one-tab-per-key property of the claim fails on this interleaving. -/
theorem duplicate_request_during_tab_creation_opens_second_tab :
    countCreateTab (runV5 ["i://app"]
      [HEvent.message (some "i://app") (ExtMessage.ssoRequest (some "h://idp?redirect_uri=h://cb")),
       HEvent.message (some "i://app") (ExtMessage.ssoRequest (some "h://idp?redirect_uri=h://cb"))]).2 = 2 ∧
    (runV5 ["i://app"]
      [HEvent.message (some "i://app") (ExtMessage.ssoRequest (some "h://idp?redirect_uri=h://cb")),
       HEvent.message (some "i://app") (ExtMessage.ssoRequest (some "h://idp?redirect_uri=h://cb"))]).1.pending.length = 2 :=
  ⟨rfl, rfl⟩

/-- C3: evaluation of the one-shot Handler variant at sso_handler.ts lines
707-826 on an `sso_request` from an origin absent from every allow-list:
that variant never consults `trusted_clients`, so the request is accepted,
the origin is added to `activeFlows`, a tab-creation call is issued, and no
error reply is sent — contradicting the claim for this variant. -/
theorem untrusted_sso_request_opens_tab_in_no_allowlist_variant :
    runV4 [HEvent.message (some "h://evil") (ExtMessage.ssoRequest (some "h://idp?redirect_uri=h://cb"))] =
      (⟨["h://evil"], [⟨"h://evil", "h://cb"⟩], []⟩,
       [Effect.createTab "h://idp?redirect_uri=h://cb"]) :=
  rfl

/-- C4 counterexample: in the timeout variant a validated `sso_request`
whose URL has no `redirect_uri` parameter is not rejected; line 995 falls
back to the sender origin as the expected prefix and the Handler issues a
tab-creation call and no reply at all, so the claimed immediate error with
zero tab creations is false for this variant. -/
theorem missing_redirect_uri_opens_tab_in_timeout_variant :
    (runV5 ["i://app"] [HEvent.message (some "i://app") (ExtMessage.ssoRequest (some "h://idp"))]).2 =
      [Effect.createTab "h://idp"] ∧
    countReplies (runV5 ["i://app"]
      [HEvent.message (some "i://app") (ExtMessage.ssoRequest (some "h://idp"))]).2 = 0 :=
  ⟨rfl, rfl⟩

/-- C4 (amended): in the handler variants that require the parameter —
modelled here by the variant at lines 386-562 — a validated `sso_request`
whose URL lacks a truthy `redirect_uri` immediately gets a single error
reply whose message contains "redirect_uri", no tab-creation call happens,
and the handler state is left exactly as it was (the flow id is added and
removed again inside the same synchronous step). -/
theorem missing_redirect_uri_immediate_error (trusted : List String)
    (s : OneShotState) (fid u : String) (hu : u ≠ "")
    (ht : trusted.contains fid = true)
    (ha : s.activeFlows.contains fid = false)
    (hp : truthyParam u "redirect_uri" = none) :
    stepMessageV3 trusted s (some fid) (.ssoRequest (some u)) =
      (s, [.reply (.error "URL must have a \x27redirect_uri\x27 parameter." none)]) ∧
    strHas "URL must have a \x27redirect_uri\x27 parameter." "redirect_uri" = true := by
  constructor
  · simp only [stepMessageV3, isRequestValid, ht, ha, startOneShotFlow, addFlow,
      removeFlow, hp, if_neg hu]
    simp [List.erase_cons_head]
  · decide

/-- Concrete instance of the amended missing-`redirect_uri` theorem. -/
theorem missing_redirect_uri_immediate_error_witness :
    stepMessageV3 ["i://a"] OneShotState.initial (some "i://a")
        (ExtMessage.ssoRequest (some "h://idp")) =
      (OneShotState.initial,
       [Effect.reply (Response.error "URL must have a \x27redirect_uri\x27 parameter." none)]) :=
  (missing_redirect_uri_immediate_error ["i://a"] OneShotState.initial "i://a" "h://idp"
    (by decide) (by decide) (by decide) (by decide)).1

/-- C5: evaluation of `start(50)` of the callback-based Connector against a
Handler that never answers the ping.  The timeout rejection is caught by
`.catch(handleError)` (lines 247-249), so the returned promise resolves, and
execution continues to attach a navigation-interception listener — both
contrary to the claim (and to the package's own test, which expects the
returned promise to reject and no listener to remain). -/
theorem start_swallows_handshake_timeout :
    startFn 50 FnConnState.initial .timedOut =
      (⟨true, false, 1⟩,
       [ConnEffect.errorCb (.communicationError "Connection to extension timed out after 50ms."),
        ConnEffect.attachInterceptListener],
       .resolved) :=
  rfl

/-- C6: evaluation of a second `start()` on an already-started callback-based
Connector.  The already-started branch only calls the error callback and does
not return (lines 178-184), so the call goes on to create a second
interceptor and attach a second `beforerequest` listener, leaving two
attached subscriptions — contrary to the claim that exactly one exists
after the failed call. -/
theorem second_start_attaches_second_listener :
    startFn 3000 ⟨true, false, 1⟩ .pongReceived =
      (⟨true, false, 2⟩,
       [ConnEffect.errorCb (.configurationError "Connector is already started."),
        ConnEffect.attachInterceptListener],
       .resolved) :=
  rfl

/-- C7: the callback-based Connector's in-flight flag: (1) while the flag is
set every intercepted navigation is dropped without sending a message and
without any state change; (2) processing any `sendMessage` response outcome
(success, error, empty, or channel failure) clears the flag; (3) `stop()` on
a started connector clears the flag; (4) the flag can only become cleared by
a response or by `stop()` — an intercepted navigation never clears it.
Hence at most one request is awaited at any time. -/
theorem in_flight_flag_protocol :
    (∀ (s : FnConnState) (u : String), s.isRequestInFlight = true →
        stepFn s (.intercept u) = (s, [])) ∧
    (∀ (s : FnConnState) (r : RespOutcome),
        ((stepFn s (.response r)).1).isRequestInFlight = false) ∧
    (∀ (s : FnConnState), s.isStarted = true →
        ((stepFn s .stopCall).1).isRequestInFlight = false) ∧
    (∀ (s : FnConnState) (e : FnEvent),
        ((stepFn s e).1).isRequestInFlight = false →
          s.isRequestInFlight = false ∨ (∃ r, e = .response r) ∨ e = .stopCall) := by
  refine ⟨?_, ?_, ?_, ?_⟩
  · intro s u h
    simp [stepFn, h]
  · intro s r
    rfl
  · intro s h
    simp [stepFn, h]
  · intro s e h
    cases e with
    | intercept u =>
      left
      cases hf : s.isRequestInFlight with
      | false => rfl
      | true => simp [stepFn, hf] at h
    | response r => exact Or.inr (Or.inl ⟨r, rfl⟩)
    | stopCall => exact Or.inr (Or.inr rfl)

/-- Concrete instance of the in-flight flag theorem: an interception arriving
while a request is in flight is dropped with no message sent. -/
theorem in_flight_flag_protocol_witness :
    stepFn ⟨true, true, 1⟩ (.intercept "h://sso") = (⟨true, true, 1⟩, []) :=
  in_flight_flag_protocol.1 ⟨true, true, 1⟩ "h://sso" rfl

/-- C8: evaluation of the port-based Connector class's message listener on an
`ssoSuccess` message with no `url`.  The listener raises the error callback
for the invalid message but, lacking an `else`, still assigns the absent
value to `controlledFrame.src` and invokes the success callback — contrary
to the claim that an invalid success leaves the surface unchanged and the
success callback uninvoked. -/
theorem invalid_success_still_navigates :
    handleMessageFromExtension ⟨some "h://old", true⟩ (.ssoSuccess none) =
      (⟨none, false⟩,
       [PortEffect.errorCb (.invalidResponseError "Received an invalid ssoSuccess message."),
        PortEffect.setSrc none, PortEffect.successCb none]) :=
  rfl

/-- C9: `SsoConnectionHandler.cleanup` is idempotent in every state: after
one invocation, a second invocation performs no browser call at all — it
removes no listener (the `hasListener` guards fail), sends no reply (cleanup
never posts messages), and does not attempt to close a tab (`authTabId` was
cleared) — and leaves the state exactly as the first invocation left it. -/
theorem cleanup_idempotent (s : CleanupState) :
    cleanup (cleanup s).1 = ((cleanup s).1, []) := by
  rcases s with ⟨wh, tid, wr, tr⟩
  cases wh <;> cases tid <;> cases wr <;> cases tr <;> rfl

/-- C10: in the one-shot handler variants that perform the allow-list check
only for `sso_request` messages — modelled by the dispatch at lines 568-607
— a `ping` is answered with `pong` before any authorization check, for every
state and every sender origin, trusted or not; any caller can complete the
handshake and observe that the extension is installed. -/
theorem ping_answered_regardless_of_allowlist (trusted : List String)
    (s : OneShotState) (origin : Option String) :
    stepMessageV2 trusted s origin .ping = (s, [.reply .pong]) :=
  rfl

end SsoOffloading
